import Mathlib

/-!
Shallow embedding of the authentication controller flows of the
node-bpk-template repository (src/src/controllers/authController.ts),
together with the Prisma data model (prisma/schema.prisma).

Modelling conventions:
* Machine state is a `DB` value holding the `User` and `VerificationCode`
  tables; Prisma `findFirst` becomes `List.find?`, `update` becomes a
  `List.map` over the matching primary key, `create` becomes an append.
* Timestamps are natural numbers; `new Date()` is the `now` argument and
  the one-minute expiration window is `now + 60`.
* Request-body fields are strings; the JavaScript falsy check `!field`
  on a missing or empty field is modelled as equality with `""`.
* The black-box collaborators (bcrypt hashing/compare, the email-format
  regexp, the random secret generator, fresh autoincrement ids) are
  passed in as parameters, matching the spec's external-interface view.
* A Prisma write that fails is modelled by a `Bool` flag per write: when
  the flag is `false` the write is not applied and the controller takes
  its error branch, mirroring the `if (!updated...) throw` checks.
* `register` can genuinely finish without sending a response or an
  error (existing unverified user, no code row located); the result
  type has an explicit `noResponse` constructor for that path.
-/

inductive OTPType
  | Register
  | PasswordChange
  | PasswordReset
deriving BEq, DecidableEq, Repr

/-- String form of the enum, as serialized into JSON responses. -/
def OTPType.str : OTPType → String
  | .Register => "Register"
  | .PasswordChange => "PasswordChange"
  | .PasswordReset => "PasswordReset"

structure User where
  id : Nat
  email : String
  username : String
  password : String
  verified : Bool
  eula_accepted : Bool
  date_joined : Nat
deriving BEq, DecidableEq, Repr

structure VerificationCode where
  id : Nat
  user_id : Nat
  type : OTPType
  code : String
  expiration_time : Nat
  used : Bool
  created_at : Nat
  updated_at : Nat
deriving BEq, DecidableEq, Repr

instance : Inhabited VerificationCode :=
  ⟨⟨0, 0, OTPType.Register, "", 0, false, 0, 0⟩⟩

structure DB where
  users : List User
  codes : List VerificationCode
deriving BEq, DecidableEq, Repr

/-- prisma.user.findFirst with an OR filter on username and email. -/
def DB.findUserByUsernameOrEmail (db : DB) (username email : String) : Option User :=
  db.users.find? (fun u => u.username == username || u.email == email)

/-- prisma.user.findFirst filtering on email. -/
def DB.findUserByEmail (db : DB) (email : String) : Option User :=
  db.users.find? (fun u => u.email == email)

/-- prisma.verificationCode.findFirst with type Register and a relation
filter requiring the owning user to have the given username and
verified=false (register flow, lines 55-63). -/
def DB.findRegisterCodeByUsername (db : DB) (username : String) : Option VerificationCode :=
  db.codes.find? (fun c =>
    c.type == OTPType.Register &&
      db.users.any (fun u => u.id == c.user_id && u.username == username && u.verified == false))

/-- prisma.verificationCode.findFirst with type Register and a relation
filter on the owning user's email (verifyRegistration flow, lines 214-221). -/
def DB.findRegisterCodeByEmail (db : DB) (email : String) : Option VerificationCode :=
  db.codes.find? (fun c =>
    c.type == OTPType.Register &&
      db.users.any (fun u => u.id == c.user_id && u.email == email))

/-- prisma.verificationCode.findFirst with type PasswordChange, a relation
filter on the owning user's username, and used=false (changePassword
flow, lines 419-425). -/
def DB.findUnusedPasswordChangeCode (db : DB) (username : String) : Option VerificationCode :=
  db.codes.find? (fun c =>
    c.type == OTPType.PasswordChange && c.used == false &&
      db.users.any (fun u => u.id == c.user_id && u.username == username))

/-- prisma.verificationCode.update on primary key id. -/
def DB.updateCode (db : DB) (cid : Nat) (f : VerificationCode → VerificationCode) : DB :=
  { db with codes := db.codes.map (fun c => if c.id == cid then f c else c) }

/-- prisma.user.update on the unique email key, setting verified to true. -/
def DB.markVerifiedByEmail (db : DB) (email : String) : DB :=
  { db with users := db.users.map (fun u => if u.email == email then { u with verified := true } else u) }

/-- Error classifier: which throw site produced the HttpError. The
source attaches a message string at each site; the classifier names the
site and the theorem statements name it together with the numeric
status, which is what the spec's taxonomy talks about. -/
inductive ErrKind
  | missingFields
  | usernameTooShort
  | passwordTooShort
  | emailInvalid
  | userAlreadyExists
  | emailAlreadyInUse
  | unverifiedCodeAlreadyUsed
  | userNotFound
  | alreadyVerified
  | codeNotFound
  | codeMismatch
  | codeAlreadyUsed
  | codeUpdateFailed
  | userUpdateFailed
  | invalidTokenPayload
  | passwordIncorrect
  | newPasswordTooShort
  | passwordsSame
  | confirmMismatch
deriving BEq, DecidableEq, Repr

structure HttpError where
  kind : ErrKind
  status : Nat
deriving BEq, DecidableEq, Repr

/-- Success body of register and changePassword: HTTP status plus the
serialized email/type/code/expiration_time fields. -/
structure CodeResponse where
  status : Nat
  email : String
  type : String
  code : String
  expiration_time : Nat
deriving BEq, DecidableEq, Repr

inductive RegisterResult
  | ok (r : CodeResponse)
  | err (e : HttpError)
  | noResponse
deriving BEq, DecidableEq, Repr

/-- register (authController.ts lines 14-181). Parameters beyond the
request body: the email-format validator, the password hash function,
the value produced by the single generateRandomSecret() call of the
taken branch, the current time, and the autoincrement ids the store
would assign to a newly created user and code row. -/
def register (db : DB) (username password email : String)
    (emailValidator : String → Bool) (hash : String → String)
    (gen : String) (now : Nat) (freshUserId freshCodeId : Nat) :
    RegisterResult × DB :=
  if username == "" || password == "" || email == "" then
    (.err ⟨.missingFields, 404⟩, db)
  else if username.length < 4 then
    (.err ⟨.usernameTooShort, 400⟩, db)
  else if password.length < 4 then
    (.err ⟨.passwordTooShort, 400⟩, db)
  else if !emailValidator email then
    (.err ⟨.emailInvalid, 400⟩, db)
  else
    match db.findUserByUsernameOrEmail username email with
    | some existingUser =>
      if existingUser.verified && existingUser.username == username then
        (.err ⟨.userAlreadyExists, 409⟩, db)
      else if existingUser.verified && existingUser.email == email then
        (.err ⟨.emailAlreadyInUse, 409⟩, db)
      else
        match db.findRegisterCodeByUsername username with
        | some entry =>
          if entry.used then
            (.err ⟨.unverifiedCodeAlreadyUsed, 409⟩, db)
          else if entry.expiration_time > now then
            (.ok ⟨200, email, "Register", entry.code, entry.expiration_time⟩, db)
          else
            (.ok ⟨200, email, "Register", gen, now + 60⟩,
              db.updateCode entry.id (fun c =>
                { c with code := gen, expiration_time := now + 60, used := false, updated_at := now }))
        | none =>
          -- source falls out of the `if (existingUser)` block and the
          -- `if (!existingUser)` block is skipped: no res, no next
          (.noResponse, db)
    | none =>
      let newUser : User :=
        { id := freshUserId, email := email, username := username,
          password := hash password, verified := false, eula_accepted := false,
          date_joined := now }
      let newEntry : VerificationCode :=
        { id := freshCodeId, user_id := newUser.id, type := OTPType.Register,
          code := gen, expiration_time := now + 60, used := false,
          created_at := now, updated_at := now }
      (.ok ⟨201, email, newEntry.type.str, newEntry.code, newEntry.expiration_time⟩,
        { db with users := db.users ++ [newUser], codes := db.codes ++ [newEntry] })

/-- Code-consumption phase of verifyRegistration (lines 214-253): locate
the Register row by email, compare the stored value against the supplied
one, check the used flag, then mark the row used. `codeWriteOk = false`
models the update write failing: it is not applied and the controller
takes its error branch. On success returns the updated row and state. -/
def consumeCode (db : DB) (email code : String) (now : Nat) (codeWriteOk : Bool) :
    Except HttpError (VerificationCode × DB) :=
  match db.findRegisterCodeByEmail email with
  | none => .error ⟨.codeNotFound, 404⟩
  | some entry =>
    if entry.code != code then
      .error ⟨.codeMismatch, 400⟩
    else if entry.used then
      .error ⟨.codeAlreadyUsed, 400⟩
    else if !codeWriteOk then
      .error ⟨.codeUpdateFailed, 400⟩
    else
      .ok ({ entry with used := true, updated_at := now },
        db.updateCode entry.id (fun c => { c with used := true, updated_at := now }))

/-- Response body of a successful verifyRegistration: the spread
of the updated user record plus the signed token's claims. -/
structure VerifyResponse where
  id : Nat
  email : String
  username : String
  password : String
  verified : Bool
  eula_accepted : Bool
  date_joined : Nat
  tokenUserId : Nat
  tokenEmail : String
deriving BEq, DecidableEq, Repr

def serializeVerify (u : User) : VerifyResponse :=
  { id := u.id, email := u.email, username := u.username, password := u.password,
    verified := u.verified, eula_accepted := u.eula_accepted,
    date_joined := u.date_joined, tokenUserId := u.id, tokenEmail := u.email }

inductive VerifyResult
  | ok (body : VerifyResponse)
  | err (e : HttpError)
deriving BEq, DecidableEq, Repr

/-- verifyRegistration (authController.ts lines 183-292). `userWriteOk`
models the prisma.user.update write; when it is false the user write is
not applied but the code-row write that already happened stays. -/
def verifyRegistration (db : DB) (email code : String) (now : Nat)
    (codeWriteOk userWriteOk : Bool) : VerifyResult × DB :=
  if email == "" || code == "" then
    (.err ⟨.missingFields, 404⟩, db)
  else
    match db.findUserByEmail email with
    | none => (.err ⟨.userNotFound, 404⟩, db)
    | some user =>
      if user.verified then
        (.err ⟨.alreadyVerified, 400⟩, db)
      else
        match consumeCode db email code now codeWriteOk with
        | .error e => (.err e, db)
        | .ok (_, db1) =>
          if !userWriteOk then
            (.err ⟨.userUpdateFailed, 400⟩, db1)
          else
            (.ok (serializeVerify { user with verified := true }),
              db1.markVerifiedByEmail email)

/-- Response body of a successful login: the full user record under the
`user` key plus the token claims. -/
structure LoginResponse where
  user : User
  tokenUserId : Nat
  tokenEmail : String
deriving BEq, DecidableEq, Repr

/-- login (authController.ts lines 294-337). `compare` is the bcrypt
comparePassword collaborator. -/
def login (db : DB) (email password : String)
    (compare : String → String → Bool) : Except HttpError LoginResponse :=
  if email == "" || password == "" then
    .error ⟨.missingFields, 404⟩
  else
    match db.findUserByEmail email with
    | none => .error ⟨.userNotFound, 404⟩
    | some user =>
      if !(compare password user.password) then
        .error ⟨.passwordIncorrect, 409⟩
      else
        .ok ⟨user, user.id, user.email⟩

/-- currentUser (authController.ts lines 339-365). `tokenEmail` is the
email claim of the already-validated bearer token; res.json(user)
serializes the full user record. -/
def currentUser (db : DB) (tokenEmail : String) : Except HttpError User :=
  if tokenEmail == "" then
    .error ⟨.invalidTokenPayload, 400⟩
  else
    match db.findUserByEmail tokenEmail with
    | none => .error ⟨.userNotFound, 404⟩
    | some user => .ok user

/-- changePassword (authController.ts lines 367-515). In the branch that
creates a fresh PasswordChange row the source serializes the literal
string "Register" into the response's type field (line 506) even though
the row itself is created with type PasswordChange; the embedding
reproduces that literal. -/
def changePassword (db : DB) (tokenEmail : String)
    (currentPassword newPassword confirmPassword : String)
    (compare : String → String → Bool)
    (gen : String) (now : Nat) (freshCodeId : Nat) :
    (Except HttpError CodeResponse) × DB :=
  if currentPassword == "" || newPassword == "" || confirmPassword == "" then
    (.error ⟨.missingFields, 404⟩, db)
  else if tokenEmail == "" then
    (.error ⟨.invalidTokenPayload, 400⟩, db)
  else if newPassword.length < 4 then
    (.error ⟨.newPasswordTooShort, 400⟩, db)
  else if currentPassword == newPassword then
    (.error ⟨.passwordsSame, 400⟩, db)
  else if newPassword != confirmPassword then
    (.error ⟨.confirmMismatch, 400⟩, db)
  else
    match db.findUserByEmail tokenEmail with
    | none => (.error ⟨.userNotFound, 404⟩, db)
    | some user =>
      if !(compare currentPassword user.password) then
        (.error ⟨.passwordIncorrect, 400⟩, db)
      else
        match db.findUnusedPasswordChangeCode user.username with
        | some entry =>
          if entry.expiration_time > now then
            (.ok ⟨200, user.email, "PasswordChange", entry.code, entry.expiration_time⟩, db)
          else
            (.ok ⟨200, user.email, "PasswordChange", gen, now + 60⟩,
              db.updateCode entry.id (fun c =>
                { c with code := gen, expiration_time := now + 60, used := false, updated_at := now }))
        | none =>
          let newEntry : VerificationCode :=
            { id := freshCodeId, user_id := user.id, type := OTPType.PasswordChange,
              code := gen, expiration_time := now + 60, used := false,
              created_at := now, updated_at := now }
          -- response type is the literal "Register" in the source here
          (.ok ⟨201, user.email, "Register", newEntry.code, newEntry.expiration_time⟩,
            { db with codes := db.codes ++ [newEntry] })

/-- Boolean check that no row's used flag went from true back to false
between two table states: positions are preserved by in-place updates
(map over the list) and by creation (append), so row i of the pre state
corresponds to row i of the post state. -/
def usedMonotoneB (pre post : List VerificationCode) : Bool :=
  decide (pre.length ≤ post.length) &&
  (List.range pre.length).all (fun i =>
    !(pre.getD i default).used || (post.getD i default).used)

/- Concrete database fixtures used by counterexamples and witnesses. -/

def exUserA : User := ⟨1, "a@x.com", "alice01", "hashA", false, false, 0⟩

def exRowUsed : VerificationCode := ⟨11, 1, OTPType.Register, "999999", 50, true, 0, 0⟩

def exDBused : DB := ⟨[exUserA], [exRowUsed]⟩

def exUserB : User := ⟨2, "b@x.com", "bob_bb", "hashB", false, false, 0⟩

def exRowLive : VerificationCode := ⟨21, 2, OTPType.Register, "123456", 50, false, 0, 0⟩

def exDBlive : DB := ⟨[exUserB], [exRowLive]⟩

def exUserV : User := ⟨3, "v@x.com", "vera01", "hashV", true, false, 0⟩

def exDBverified : DB := ⟨[exUserV], []⟩

def exUserC : User := ⟨5, "c@x.com", "carol01", "hashC", false, false, 0⟩

def exDBnoRow : DB := ⟨[exUserC], []⟩

def exUserD : User := ⟨6, "d@x.com", "dave01", "hashD", false, false, 0⟩

def exDBhole : DB := ⟨[exUserD], []⟩

def exUserP : User := ⟨4, "p@x.com", "pete01", "hashP", true, false, 0⟩

def exDBnoCode : DB := ⟨[exUserP], []⟩

/- Helper lemmas. -/

theorem usedMonotoneB_map (l : List VerificationCode) (f : VerificationCode → VerificationCode)
    (hf : ∀ c ∈ l, c.used = true → (f c).used = true) :
    usedMonotoneB l (l.map f) = true := by
  simp [usedMonotoneB, List.all_eq_true]
  intro i hi
  rw [List.getElem?_eq_getElem hi]
  cases h : l[i].used with
  | false => exact Or.inl (by simp [h])
  | true => exact Or.inr (by simp [hf l[i] (List.getElem_mem hi) h])

theorem usedMonotoneB_refl (l : List VerificationCode) : usedMonotoneB l l = true := by
  have h := usedMonotoneB_map l id (by intro c _ hc; simpa using hc)
  simpa using h

theorem usedMonotoneB_append (l l2 : List VerificationCode) :
    usedMonotoneB l (l ++ l2) = true := by
  simp [usedMonotoneB, List.all_eq_true]
  intro i hi
  rw [List.getElem?_append_left hi, List.getElem?_eq_getElem hi]
  cases h : l[i].used
  · exact Or.inl (by simp [h])
  · exact Or.inr (by simp [h])

theorem id_unique_eq (l : List VerificationCode)
    (hw : l.Pairwise (fun a b => a.id ≠ b.id)) (a b : VerificationCode)
    (ha : a ∈ l) (hb : b ∈ l) (hid : a.id = b.id) : a = b := by
  induction l with
  | nil => cases ha
  | cons hd tl ih =>
    rcases List.pairwise_cons.mp hw with ⟨hhd, htl⟩
    rcases List.mem_cons.mp ha with rfl | ha2
    · rcases List.mem_cons.mp hb with rfl | hb2
      · rfl
      · exact absurd hid (hhd b hb2)
    · rcases List.mem_cons.mp hb with rfl | hb2
      · exact absurd hid.symm (hhd a ha2)
      · exact ih htl ha2 hb2

/-- Refreshing a row that is known to be unused preserves used-flag
monotonicity, provided row ids are unique. -/
theorem usedMonotoneB_refresh (l : List VerificationCode)
    (hw : l.Pairwise (fun a b => a.id ≠ b.id)) (entry : VerificationCode)
    (hmem : entry ∈ l) (hunused : entry.used = false)
    (g : VerificationCode → VerificationCode) :
    usedMonotoneB l (l.map (fun c => if c.id == entry.id then g c else c)) = true := by
  apply usedMonotoneB_map
  intro c hc hcu
  by_cases hid : c.id = entry.id
  · have hce : c = entry := id_unique_eq l hw c entry hc hmem hid
    rw [hce] at hcu
    exact absurd hcu (by simp [hunused])
  · simp [hid]
    exact hcu

/-- Inversion of a successful consumeCode run: the located entry was
unused, its stored code matched the supplied one, and the output state
is the input state with that row marked used. -/
theorem consumeCode_ok_inv (db : DB) (email code : String) (now : Nat) (w : Bool)
    (u : VerificationCode) (db1 : DB)
    (h : consumeCode db email code now w = .ok (u, db1)) :
    ∃ entry, db.findRegisterCodeByEmail email = some entry ∧
      db1 = db.updateCode entry.id (fun c => { c with used := true, updated_at := now }) ∧
      u = { entry with used := true, updated_at := now } ∧
      entry.used = false ∧ entry.code = code := by
  unfold consumeCode at h
  split at h
  · cases h
  next entry heq =>
    split at h
    · cases h
    next hne =>
      split at h
      · cases h
      next hused =>
        split at h
        · cases h
        next hwr =>
          cases h
          refine ⟨entry, heq, rfl, rfl, by simpa using hused, by simpa using hne⟩

/-- With a succeeding write, the only error outcomes of the
code-consumption phase are the three code-related classifiers. -/
theorem consumeCode_error_inv (db : DB) (email code : String) (now : Nat)
    (err : HttpError) (h : consumeCode db email code now true = .error err) :
    err.kind = ErrKind.codeNotFound ∨ err.kind = ErrKind.codeMismatch ∨
      err.kind = ErrKind.codeAlreadyUsed := by
  unfold consumeCode at h
  split at h
  · cases h; exact Or.inl rfl
  · split at h
    · cases h; exact Or.inr (Or.inl rfl)
    · split at h
      · cases h; exact Or.inr (Or.inr rfl)
      · split at h
        next => simp_all
        next => cases h

/-- Marking a user verified by email keeps that user the first email
match, now with the verified flag set. -/
theorem findUserByEmail_markVerified (db : DB) (email : String) (user : User)
    (hu : db.findUserByEmail email = some user) :
    (db.markVerifiedByEmail email).findUserByEmail email
      = some { user with verified := true } := by
  have hu2 : db.users.find? (fun u => u.email == email) = some user := hu
  have hp : ((fun u : User => u.email == email) ∘
      (fun u : User => if u.email == email then { u with verified := true } else u))
        = (fun u : User => u.email == email) := by
    funext u
    by_cases h : u.email = email <;> simp [h]
  show (db.users.map
      (fun u => if u.email == email then { u with verified := true } else u)).find?
        (fun u => u.email == email) = some { user with verified := true }
  rw [List.find?_map, hp, hu2]
  have hue : user.email = email := by simpa using List.find?_some hu2
  simp [hue]

/-- Inversion of a successful verifyRegistration run with succeeding
writes: recovers the located user and entry, the pre-state facts the
success implies, the response body, and the final state. -/
theorem verifyRegistration_ok_inv (db : DB) (email code : String) (now : Nat)
    (body : VerifyResponse)
    (h : (verifyRegistration db email code now true true).1 = VerifyResult.ok body) :
    ∃ user entry, email ≠ "" ∧ code ≠ "" ∧
      db.findUserByEmail email = some user ∧ user.verified = false ∧
      db.findRegisterCodeByEmail email = some entry ∧
      body = serializeVerify { user with verified := true } ∧
      (verifyRegistration db email code now true true).2
        = (db.updateCode entry.id
            (fun c => { c with used := true, updated_at := now })).markVerifiedByEmail email := by
  unfold verifyRegistration at h ⊢
  split at h
  · simp at h
  next hmf =>
    split at h
    · simp at h
    next user huser =>
      split at h
      · simp at h
      next hver =>
        split at h
        · simp at h
        next upd db1 hcon =>
          rcases consumeCode_ok_inv db email code now true upd db1 hcon with
            ⟨entry, hentry, rfl, hupd, hunused, hmatch⟩
          simp only [Bool.not_true, if_false] at h
          have hne : ¬(email = "" ∨ code = "") := by simpa using hmf
          refine ⟨user, entry, fun he => hne (Or.inl he), fun hc => hne (Or.inr hc),
            huser, by simpa using hver, hentry, ?_, ?_⟩
          · simpa using h.symm
          · simp [hver, hne]

/-- Monotonicity of the used flag across one register call. -/
theorem register_monotone (db : DB) (hw : db.codes.Pairwise (fun a b => a.id ≠ b.id))
    (username password email : String) (ev : String → Bool) (hash : String → String)
    (gen : String) (now fu fc : Nat) :
    usedMonotoneB db.codes
      (register db username password email ev hash gen now fu fc).2.codes = true := by
  unfold register
  split
  · exact usedMonotoneB_refl _
  split
  · exact usedMonotoneB_refl _
  split
  · exact usedMonotoneB_refl _
  split
  · exact usedMonotoneB_refl _
  split
  next eu heq =>
    split
    · exact usedMonotoneB_refl _
    split
    · exact usedMonotoneB_refl _
    split
    next entry hentry =>
      split
      · exact usedMonotoneB_refl _
      next hused =>
        split
        · exact usedMonotoneB_refl _
        · simp only [DB.updateCode]
          exact usedMonotoneB_refresh db.codes hw entry
            (List.mem_of_find?_eq_some hentry) (by simpa using hused) _
    · exact usedMonotoneB_refl _
  · exact usedMonotoneB_append _ _

/-- Monotonicity of the used flag across one changePassword call. -/
theorem changePassword_monotone (db : DB) (hw : db.codes.Pairwise (fun a b => a.id ≠ b.id))
    (tokenEmail cp np conf : String) (compare : String → String → Bool)
    (gen : String) (now fc : Nat) :
    usedMonotoneB db.codes
      (changePassword db tokenEmail cp np conf compare gen now fc).2.codes = true := by
  unfold changePassword
  split
  · exact usedMonotoneB_refl _
  split
  · exact usedMonotoneB_refl _
  split
  · exact usedMonotoneB_refl _
  split
  · exact usedMonotoneB_refl _
  split
  · exact usedMonotoneB_refl _
  split
  · exact usedMonotoneB_refl _
  next user huser =>
    split
    · exact usedMonotoneB_refl _
    split
    next entry hentry =>
      split
      · exact usedMonotoneB_refl _
      · have h2 : db.codes.find? (fun c =>
            c.type == OTPType.PasswordChange && c.used == false &&
              db.users.any (fun u => u.id == c.user_id && u.username == user.username))
            = some entry := hentry
        have hpred := List.find?_some h2
        have hunused : entry.used = false := by
          simp at hpred
          exact hpred.1.2
        simp only [DB.updateCode]
        exact usedMonotoneB_refresh db.codes hw entry
          (List.mem_of_find?_eq_some h2) hunused _
    · exact usedMonotoneB_append _ _

/-- Monotonicity of the used flag across one verifyRegistration call
(the only code write sets used to true, so no uniqueness is needed). -/
theorem verifyRegistration_monotone (db : DB)
    (email code : String) (now : Nat) (w1 w2 : Bool) :
    usedMonotoneB db.codes
      (verifyRegistration db email code now w1 w2).2.codes = true := by
  unfold verifyRegistration
  split
  · exact usedMonotoneB_refl _
  split
  · exact usedMonotoneB_refl _
  next user huser =>
    split
    · exact usedMonotoneB_refl _
    split
    · exact usedMonotoneB_refl _
    next upd db1 hcon =>
      rcases consumeCode_ok_inv db email code now w1 upd db1 hcon with
        ⟨entry, hentry, rfl, _, _, _⟩
      have hmono : usedMonotoneB db.codes
          (db.updateCode entry.id (fun c => { c with used := true, updated_at := now })).codes
            = true := by
        simp only [DB.updateCode]
        apply usedMonotoneB_map
        intro c hc hcu
        by_cases hid : c.id = entry.id <;> simp [hid, hcu]
      split
      · exact hmono
      · simpa [DB.markVerifiedByEmail] using hmono

/-- Claim C1 (corrected). In verifyRegistration the supplied code is
compared against the stored value BEFORE the used flag is inspected
(authController.ts lines 227-239): when the located Register row has
used=true, the request fails CodeAlreadyUsed only if the supplied code
matches the stored value, and fails CodeMismatch when it does not. -/
theorem verify_used_row_mismatch_precedence
    (db : DB) (email code : String) (now : Nat) (w1 w2 : Bool)
    (user : User) (entry : VerificationCode)
    (hemail : email ≠ "") (hcode : code ≠ "")
    (hu : db.findUserByEmail email = some user) (hv : user.verified = false)
    (he : db.findRegisterCodeByEmail email = some entry)
    (hused : entry.used = true) :
    (verifyRegistration db email code now w1 w2).1 =
      (if entry.code == code then VerifyResult.err ⟨ErrKind.codeAlreadyUsed, 400⟩
       else VerifyResult.err ⟨ErrKind.codeMismatch, 400⟩) := by
  simp only [verifyRegistration, consumeCode, hu, he, hv]
  by_cases hc : entry.code = code
  · simp [hc, hused, hemail, hcode]
  · simp [hc, hemail, hcode, bne_iff_ne]

/-- Claim C1 counterexample: a used Register row with stored code 999999
and supplied code 000000 reports CodeMismatch, not CodeAlreadyUsed. -/
theorem verify_used_row_wrong_code_gives_mismatch :
    (verifyRegistration exDBused "a@x.com" "000000" 3 true true).1
      = VerifyResult.err ⟨ErrKind.codeMismatch, 400⟩ := by decide

/-- Witness for the amended C1 theorem at a concrete state: the same
used row with the matching supplied code 999999 reports CodeAlreadyUsed. -/
theorem verify_used_row_mismatch_precedence_witness :
    (verifyRegistration exDBused "a@x.com" "999999" 3 true true).1
      = VerifyResult.err ⟨ErrKind.codeAlreadyUsed, 400⟩ := by
  have h := verify_used_row_mismatch_precedence exDBused "a@x.com" "999999" 3 true true
    exUserA exRowUsed (by decide) (by decide) rfl rfl rfl rfl
  simpa using h

/-- Claim C2 (corrected). The consume-code and mark-verified writes are
applied sequentially, not atomically: when the user-verification write
fails after the code-row write succeeded, verifyRegistration surfaces an
error while the code row remains observably marked used and the users
table (hence the unverified user) is unchanged. -/
theorem verify_consume_then_mark_not_atomic
    (db : DB) (email code : String) (now : Nat)
    (user : User) (entry : VerificationCode)
    (hemail : email ≠ "") (hcode : code ≠ "")
    (hu : db.findUserByEmail email = some user) (hv : user.verified = false)
    (he : db.findRegisterCodeByEmail email = some entry)
    (hunused : entry.used = false) (hmatch : entry.code = code) :
    (verifyRegistration db email code now true false).1
        = VerifyResult.err ⟨ErrKind.userUpdateFailed, 400⟩ ∧
    (verifyRegistration db email code now true false).2.users = db.users ∧
    ({ entry with used := true, updated_at := now }
        ∈ (verifyRegistration db email code now true false).2.codes) := by
  have hmem : entry ∈ db.codes := List.mem_of_find?_eq_some he
  have hrun : verifyRegistration db email code now true false
      = (VerifyResult.err ⟨ErrKind.userUpdateFailed, 400⟩,
         db.updateCode entry.id (fun c => { c with used := true, updated_at := now })) := by
    simp only [verifyRegistration, consumeCode, hu, he, hv, hmatch]
    simp [hemail, hcode, hunused]
  rw [hrun]
  refine ⟨rfl, rfl, ?_⟩
  simp only [DB.updateCode]
  have hm := List.mem_map_of_mem
    (f := fun c => if c.id == entry.id then { c with used := true, updated_at := now } else c)
    hmem
  simpa using hm

/-- Claim C2 counterexample: an execution whose user-verification write
fails ends with the code row marked used and the user still unverified,
so the pair of writes is not applied atomically. -/
theorem verify_partial_write_leaves_used_code :
    (verifyRegistration exDBlive "b@x.com" "123456" 5 true false).1
        = VerifyResult.err ⟨ErrKind.userUpdateFailed, 400⟩ ∧
    (verifyRegistration exDBlive "b@x.com" "123456" 5 true false).2.codes
        = [⟨21, 2, OTPType.Register, "123456", 50, true, 0, 5⟩] ∧
    (verifyRegistration exDBlive "b@x.com" "123456" 5 true false).2.users
        = [exUserB] := by decide

/-- Witness for the amended C2 theorem at a concrete state. -/
theorem verify_consume_then_mark_not_atomic_witness :
    (verifyRegistration exDBlive "b@x.com" "123456" 9 true false).1
        = VerifyResult.err ⟨ErrKind.userUpdateFailed, 400⟩ ∧
    (verifyRegistration exDBlive "b@x.com" "123456" 9 true false).2.users
        = exDBlive.users ∧
    ({ exRowLive with used := true, updated_at := 9 }
        ∈ (verifyRegistration exDBlive "b@x.com" "123456" 9 true false).2.codes) :=
  verify_consume_then_mark_not_atomic exDBlive "b@x.com" "123456" 9
    exUserB exRowLive (by decide) (by decide) rfl rfl rfl rfl rfl

/-- Claim C3 (confirmed). For an existing unverified user whose unused
Register row is located by the lookup: before expiry, register returns
the stored code with HTTP 200 and leaves the state untouched
(idempotence); at or after expiry it returns the freshly generated
value with a new expiration, updating the same row in place (the map
preserves every row id and the table length), creating no new row and
touching no user. Freshness of the generator (gen differs from the
stored code) makes the returned value a different code. -/
theorem register_idempotent_then_refresh_in_place
    (db : DB) (username password email : String)
    (ev : String → Bool) (hash : String → String)
    (gen : String) (now fu fc : Nat)
    (eu : User) (entry : VerificationCode)
    (h1 : username ≠ "") (h2 : password ≠ "") (h3 : email ≠ "")
    (h4 : ¬ username.length < 4) (h5 : ¬ password.length < 4)
    (h6 : ev email = true)
    (hfind : db.findUserByUsernameOrEmail username email = some eu)
    (hver : eu.verified = false)
    (hentry : db.findRegisterCodeByUsername username = some entry)
    (hunused : entry.used = false)
    (hfresh : gen ≠ entry.code) :
    (now < entry.expiration_time →
      register db username password email ev hash gen now fu fc
        = (RegisterResult.ok ⟨200, email, "Register", entry.code, entry.expiration_time⟩, db)) ∧
    (entry.expiration_time ≤ now →
      (register db username password email ev hash gen now fu fc).1
          = RegisterResult.ok ⟨200, email, "Register", gen, now + 60⟩ ∧
      gen ≠ entry.code ∧
      (register db username password email ev hash gen now fu fc).2.codes
        = db.codes.map (fun c => if c.id == entry.id then
            { c with code := gen, expiration_time := now + 60, used := false, updated_at := now }
          else c) ∧
      (register db username password email ev hash gen now fu fc).2.codes.length
        = db.codes.length ∧
      (register db username password email ev hash gen now fu fc).2.users = db.users) := by
  constructor
  · intro hlt
    simp only [register, hfind, hentry]
    simp [h1, h2, h3, h4, h5, h6, hver, hunused, hlt]
  · intro hle
    have hnotlt : ¬ entry.expiration_time > now := by omega
    simp only [register, hfind, hentry]
    simp [h1, h2, h3, h4, h5, h6, hver, hunused, hnotlt, hfresh, DB.updateCode]

/-- Witness for C3 at a concrete state, in the not-yet-expired case:
re-registering returns the stored code 123456 with the state unchanged. -/
theorem register_idempotent_then_refresh_in_place_witness :
    register exDBlive "bob_bb" "pass1234" "b@x.com" (fun _ => true) (fun s => s)
        "654321" 5 77 78
      = (RegisterResult.ok ⟨200, "b@x.com", "Register", "123456", 50⟩, exDBlive) :=
  (register_idempotent_then_refresh_in_place exDBlive "bob_bb" "pass1234" "b@x.com"
    (fun _ => true) (fun s => s) "654321" 5 77 78 exUserB exRowLive
    (by decide) (by decide) (by decide) (by decide) (by decide) rfl
    rfl rfl rfl rfl (by decide)).1 (by decide)

/-- Claim C4 (corrected). When registration matches an existing user:
a verified user always produces a 409 structured error; an unverified
user whose unused Register row is located by the lookup gets a 200
response carrying a code (resume registration). The correction: when
the unverified user has no located Register row, the flow returns
neither (see the counterexample, where the result is noResponse). -/
theorem register_conflict_or_resume
    (db : DB) (username password email : String)
    (ev : String → Bool) (hash : String → String)
    (gen : String) (now fu fc : Nat) (eu : User)
    (h1 : username ≠ "") (h2 : password ≠ "") (h3 : email ≠ "")
    (h4 : ¬ username.length < 4) (h5 : ¬ password.length < 4)
    (h6 : ev email = true)
    (hfind : db.findUserByUsernameOrEmail username email = some eu) :
    (eu.verified = true →
      ∃ e : HttpError, e.status = 409 ∧
        (register db username password email ev hash gen now fu fc).1 = RegisterResult.err e) ∧
    (eu.verified = false →
      ∀ entry, db.findRegisterCodeByUsername username = some entry → entry.used = false →
        ∃ r : CodeResponse, r.status = 200 ∧ r.type = "Register" ∧
          (register db username password email ev hash gen now fu fc).1
            = RegisterResult.ok r) := by
  have hf2 : db.users.find? (fun u => u.username == username || u.email == email) = some eu :=
    hfind
  have hpred : eu.username = username ∨ eu.email = email := by
    simpa using List.find?_some hf2
  constructor
  · intro hver
    by_cases hn : eu.username = username
    · refine ⟨⟨ErrKind.userAlreadyExists, 409⟩, rfl, ?_⟩
      simp only [register, hfind]
      simp [h1, h2, h3, h4, h5, h6, hver, hn]
    · have he : eu.email = email := hpred.resolve_left hn
      refine ⟨⟨ErrKind.emailAlreadyInUse, 409⟩, rfl, ?_⟩
      simp only [register, hfind]
      simp [h1, h2, h3, h4, h5, h6, hver, hn, he]
  · intro hver entry hentry hunused
    by_cases hexp : entry.expiration_time > now
    · refine ⟨⟨200, email, "Register", entry.code, entry.expiration_time⟩, rfl, rfl, ?_⟩
      simp only [register, hfind, hentry]
      simp [h1, h2, h3, h4, h5, h6, hver, hunused, hexp]
    · refine ⟨⟨200, email, "Register", gen, now + 60⟩, rfl, rfl, ?_⟩
      simp only [register, hfind, hentry]
      simp [h1, h2, h3, h4, h5, h6, hver, hunused, hexp]

/-- Claim C4 counterexample: an existing unverified user for whom the
lookup finds no Register code row gets neither a code response nor any
error: the flow ends with no outcome at all. -/
theorem register_unverified_without_row_returns_nothing :
    (register exDBnoRow "carol01" "pass1234" "c@x.com" (fun _ => true) (fun s => s)
        "111111" 0 5 6).1
      = RegisterResult.noResponse := by decide

/-- Witness for the amended C4 theorem at a concrete state with a
verified existing user: the request fails with a 409 error. -/
theorem register_conflict_or_resume_witness :
    ∃ e : HttpError, e.status = 409 ∧
      (register exDBverified "vera01" "pass1234" "v@x.com" (fun _ => true) (fun s => s)
          "111111" 0 5 6).1
        = RegisterResult.err e :=
  (register_conflict_or_resume exDBverified "vera01" "pass1234" "v@x.com"
    (fun _ => true) (fun s => s) "111111" 0 5 6 exUserV
    (by decide) (by decide) (by decide) (by decide) (by decide) rfl rfl).1 rfl

/-- Claim C5 (confirmed). Under the schema invariant that row ids are
unique, the used=true state of a VerificationCode row is monotonic
across register, changePassword and verifyRegistration: no call ever
turns a used row back into an unused one. The refresh branches write
used:=false only to a row the branch has already established to be
unused (register checks the flag and throws first; changePassword's
lookup filters on used=false). -/
theorem verification_code_used_flag_monotone
    (db : DB) (hw : db.codes.Pairwise (fun a b => a.id ≠ b.id)) :
    (∀ username password email ev hash gen now fu fc,
      usedMonotoneB db.codes
        (register db username password email ev hash gen now fu fc).2.codes = true) ∧
    (∀ tokenEmail cp np conf compare gen now fc,
      usedMonotoneB db.codes
        (changePassword db tokenEmail cp np conf compare gen now fc).2.codes = true) ∧
    (∀ email code now w1 w2,
      usedMonotoneB db.codes
        (verifyRegistration db email code now w1 w2).2.codes = true) :=
  ⟨fun username password email ev hash gen now fu fc =>
      register_monotone db hw username password email ev hash gen now fu fc,
   fun tokenEmail cp np conf compare gen now fc =>
      changePassword_monotone db hw tokenEmail cp np conf compare gen now fc,
   fun email code now w1 w2 =>
      verifyRegistration_monotone db email code now w1 w2⟩

/-- Witness for C5 at a concrete state: consuming the live row of the
fixture database keeps the used flag monotone. -/
theorem verification_code_used_flag_monotone_witness :
    usedMonotoneB exDBlive.codes
      (verifyRegistration exDBlive "b@x.com" "123456" 5 true true).2.codes = true :=
  (verification_code_used_flag_monotone exDBlive (by decide)).2.2 "b@x.com" "123456" 5 true true

/-- Claim C6 (confirmed). Expiration is not checked at consumption
time: for an unverified user whose unused Register row stores exactly
the supplied code, verifyRegistration succeeds even under the explicit
hypothesis that the row is already expired (expiration_time ≤ now) —
the row is marked used, the user's verified flag becomes true — and
with a succeeding write the only error outcomes of the consumption
phase are CodeNotFound, CodeMismatch and CodeAlreadyUsed. -/
theorem consume_succeeds_ignoring_expiration
    (db : DB) (email code : String) (now : Nat)
    (user : User) (entry : VerificationCode)
    (hemail : email ≠ "") (hcode : code ≠ "")
    (hu : db.findUserByEmail email = some user) (hv : user.verified = false)
    (he : db.findRegisterCodeByEmail email = some entry)
    (hunused : entry.used = false) (hmatch : entry.code = code)
    (hexpired : entry.expiration_time ≤ now) :
    (verifyRegistration db email code now true true).1
        = VerifyResult.ok (serializeVerify { user with verified := true }) ∧
    ({ entry with used := true, updated_at := now }
        ∈ (verifyRegistration db email code now true true).2.codes) ∧
    ((verifyRegistration db email code now true true).2.findUserByEmail email
        = some { user with verified := true }) ∧
    (∀ (db2 : DB) (e c : String) (n : Nat) (err : HttpError),
        consumeCode db2 e c n true = Except.error err →
        err.kind = ErrKind.codeNotFound ∨ err.kind = ErrKind.codeMismatch ∨
          err.kind = ErrKind.codeAlreadyUsed) := by
  have hmem : entry ∈ db.codes := List.mem_of_find?_eq_some he
  have hrun : verifyRegistration db email code now true true
      = (VerifyResult.ok (serializeVerify { user with verified := true }),
         (db.updateCode entry.id
           (fun c => { c with used := true, updated_at := now })).markVerifiedByEmail email) := by
    simp only [verifyRegistration, consumeCode, hu, he, hv, hmatch]
    simp [hemail, hcode, hunused]
  refine ⟨by rw [hrun], ?_, ?_, consumeCode_error_inv⟩
  · rw [hrun]
    show _ ∈ (db.codes.map fun c =>
      if c.id == entry.id then { c with used := true, updated_at := now } else c)
    have hm := List.mem_map_of_mem
      (f := fun c => if c.id == entry.id then { c with used := true, updated_at := now } else c)
      hmem
    simpa using hm
  · rw [hrun]
    exact findUserByEmail_markVerified _ email user hu

/-- Witness for C6 at a concrete state where the row expired at time 50
and the request arrives at time 60: consumption still succeeds. -/
theorem consume_succeeds_ignoring_expiration_witness :
    (verifyRegistration exDBlive "b@x.com" "123456" 60 true true).1
      = VerifyResult.ok (serializeVerify { exUserB with verified := true }) :=
  (consume_succeeds_ignoring_expiration exDBlive "b@x.com" "123456" 60 exUserB exRowLive
    (by decide) (by decide) rfl rfl rfl rfl rfl (by decide)).1

/-- Claim C7 (confirmed). When verifyRegistration succeeds (with
succeeding writes), the user found by email in the resulting state has
verified = true, and every subsequent verifyRegistration for the same
email — with any supplied code, any time, and any write outcomes —
fails AlreadyVerified (status 400): the check sits before any code
lookup, so the Unverified to Verified transition happens at most once. -/
theorem verify_transition_happens_at_most_once
    (db : DB) (email code : String) (now : Nat) (body : VerifyResponse)
    (h : (verifyRegistration db email code now true true).1 = VerifyResult.ok body) :
    ((verifyRegistration db email code now true true).2.findUserByEmail email).isSome = true ∧
    (∀ u, (verifyRegistration db email code now true true).2.findUserByEmail email = some u →
      u.verified = true) ∧
    (∀ c2 now2 w1 w2, c2 ≠ "" →
      (verifyRegistration (verifyRegistration db email code now true true).2
          email c2 now2 w1 w2).1
        = VerifyResult.err ⟨ErrKind.alreadyVerified, 400⟩) := by
  rcases verifyRegistration_ok_inv db email code now body h with
    ⟨user, entry, hemail, hcode, hu, hv, he, hbody, hdb⟩
  have hu1 : ((db.updateCode entry.id
      (fun c => { c with used := true, updated_at := now }))).findUserByEmail email
        = some user := hu
  have hfind : (verifyRegistration db email code now true true).2.findUserByEmail email
      = some { user with verified := true } := by
    rw [hdb]
    exact findUserByEmail_markVerified _ email user hu1
  refine ⟨by rw [hfind]; rfl, ?_, ?_⟩
  · intro u huu
    rw [hfind] at huu
    cases huu
    rfl
  · intro c2 now2 w1 w2 hc2
    generalize hg : (verifyRegistration db email code now true true).2 = db2 at hfind ⊢
    simp only [verifyRegistration, hfind]
    simp [hemail, hc2]

/-- Witness for C7 at a concrete state: after the successful verify of
the fixture user, the stored user is verified. -/
theorem verify_transition_happens_at_most_once_witness :
    ((verifyRegistration exDBlive "b@x.com" "123456" 5 true true).2.findUserByEmail
        "b@x.com").isSome = true ∧
    (verifyRegistration (verifyRegistration exDBlive "b@x.com" "123456" 5 true true).2
        "b@x.com" "123456" 6 true true).1
      = VerifyResult.err ⟨ErrKind.alreadyVerified, 400⟩ := by
  have h := verify_transition_happens_at_most_once exDBlive "b@x.com" "123456" 5
    (serializeVerify { exUserB with verified := true }) (by decide)
  exact ⟨h.1, h.2.2 "123456" 6 true true (by decide)⟩

/-- Claim C8 (corrected). A register call ends with no observable
outcome (neither a success response nor a structured error) exactly
when field validation passes, an existing user is found, that user is
unverified, and the Register-code lookup locates no row; on every other
input the flow produces exactly one success response or error. -/
theorem register_noResponse_characterization
    (db : DB) (username password email : String) (ev : String → Bool)
    (hash : String → String) (gen : String) (now fu fc : Nat) :
    (register db username password email ev hash gen now fu fc).1
        = RegisterResult.noResponse ↔
      (username ≠ "" ∧ password ≠ "" ∧ email ≠ "" ∧
       ¬ username.length < 4 ∧ ¬ password.length < 4 ∧ ev email = true ∧
       ∃ eu, db.findUserByUsernameOrEmail username email = some eu ∧ eu.verified = false ∧
         db.findRegisterCodeByUsername username = none) := by
  constructor
  · intro h
    unfold register at h
    split at h
    · simp at h
    next hmf =>
      split at h
      · simp at h
      next hl1 =>
        split at h
        · simp at h
        next hl2 =>
          split at h
          · simp at h
          next hev =>
            split at h
            next eu hfind =>
              split at h
              · simp at h
              next hg1 =>
                split at h
                · simp at h
                next hg2 =>
                  split at h
                  next entry hentry =>
                    split at h
                    · simp at h
                    · split at h <;> simp at h
                  next hentry =>
                    obtain ⟨⟨hx1, hx2⟩, hx3⟩ :
                        (¬username = "" ∧ ¬password = "") ∧ ¬email = "" := by
                      simpa using hmf
                    have hpred : eu.username = username ∨ eu.email = email := by
                      have hf2 : db.users.find?
                          (fun u => u.username == username || u.email == email) = some eu :=
                        hfind
                      simpa using List.find?_some hf2
                    have hver : eu.verified = false := by
                      rcases hpred with hn | he
                      · by_contra hvv
                        simp only [Bool.not_eq_false] at hvv
                        exact hg1 (by simp [hvv, hn])
                      · by_contra hvv
                        simp only [Bool.not_eq_false] at hvv
                        by_cases hn : eu.username = username
                        · exact hg1 (by simp [hvv, hn])
                        · exact hg2 (by simp [hvv, he])
                    exact ⟨hx1, hx2, hx3,
                      by simpa using hl1, by simpa using hl2, by simpa using hev,
                      eu, hfind, hver, hentry⟩
            · simp at h
  · rintro ⟨h1, h2, h3, h4, h5, h6, eu, hfind, hver, hentry⟩
    simp only [register, hfind, hentry]
    simp [h1, h2, h3, h4, h5, h6, hver]

/-- Claim C8 counterexample: a concrete register request (existing
unverified user, empty code table) that produces neither a success
response nor an error, refuting the claim that every request yields
exactly one of the two. -/
theorem register_can_finish_without_outcome :
    (register exDBhole "dave01" "pass1234" "d@x.com" (fun _ => true) (fun s => s)
        "222222" 0 8 9).1
      = RegisterResult.noResponse := by decide

/-- Witness for the amended C8 theorem: the characterization applied at
a concrete input, in the direction deriving noResponse from the hole
conditions. -/
theorem register_noResponse_characterization_witness :
    (register exDBhole "dave01" "pass4321" "d@x.com" (fun _ => true) (fun s => s)
        "222222" 1 8 9).1
      = RegisterResult.noResponse :=
  (register_noResponse_characterization exDBhole "dave01" "pass4321" "d@x.com"
    (fun _ => true) (fun s => s) "222222" 1 8 9).mpr
    ⟨by decide, by decide, by decide, by decide, by decide, rfl, exUserD, rfl, rfl, rfl⟩

/-- Claim C9 (code bug). On a change-password request that passes all
checks and finds no unused PasswordChange row, the source creates the
new row with type PasswordChange (and logs it as PasswordChange) but
serializes the literal string "Register" into the 201 response's type
field (authController.ts line 506), contradicting both the spec and the
sibling branches, which respond "PasswordChange". The theorem evaluates
the embedded flow at such an input: the created row carries
OTPType.PasswordChange while the response's type field is "Register". -/
theorem changePassword_create_branch_responds_register_type :
    (changePassword exDBnoCode "p@x.com" "oldpass" "newpass1" "newpass1"
        (fun _ _ => true) "222222" 10 7).1
      = Except.ok ⟨201, "p@x.com", "Register", "222222", 70⟩ ∧
    (changePassword exDBnoCode "p@x.com" "oldpass" "newpass1" "newpass1"
        (fun _ _ => true) "222222" 10 7).2.codes
      = [⟨7, 4, OTPType.PasswordChange, "222222", 70, false, 10, 10⟩] := by
  exact ⟨rfl, rfl⟩

/-- Claim C10 (confirmed). The success bodies of verify-registration,
login and current-user all serialize the full stored user record,
password-hash field included: a successful verify's body carries the
stored user's password hash, a successful login's body contains the
complete stored user record, and current-user returns the complete
stored record. -/
theorem success_bodies_include_password_hash (db : DB) :
    (∀ email code now body,
        (verifyRegistration db email code now true true).1 = VerifyResult.ok body →
        ∃ u, db.findUserByEmail email = some u ∧ body.password = u.password) ∧
    (∀ email password compare resp,
        login db email password compare = Except.ok resp →
        db.findUserByEmail email = some resp.user) ∧
    (∀ tokenEmail u, currentUser db tokenEmail = Except.ok u →
        db.findUserByEmail tokenEmail = some u) := by
  refine ⟨?_, ?_, ?_⟩
  · intro email code now body h
    rcases verifyRegistration_ok_inv db email code now body h with
      ⟨user, entry, _, _, hu, _, _, hbody, _⟩
    exact ⟨user, hu, by rw [hbody]; rfl⟩
  · intro email password compare resp h
    unfold login at h
    split at h
    · cases h
    split at h
    · cases h
    next user huser =>
      split at h
      · cases h
      · cases h
        exact huser
  · intro tokenEmail u h
    unfold currentUser at h
    split at h
    · cases h
    split at h
    · cases h
    next user huser =>
      cases h
      exact huser

/-- Witness for C10 at a concrete state: a successful verify response
body carries the stored password hash, and current-user returns the
complete stored record. -/
theorem success_bodies_include_password_hash_witness :
    (∃ u, exDBlive.findUserByEmail "b@x.com" = some u ∧
      (serializeVerify { exUserB with verified := true }).password = u.password) ∧
    exDBlive.findUserByEmail "b@x.com" = some exUserB := by
  have h := success_bodies_include_password_hash exDBlive
  exact ⟨h.1 "b@x.com" "123456" 5 (serializeVerify { exUserB with verified := true })
      (by decide),
    h.2.2 "b@x.com" exUserB rfl⟩
